import Mathlib

/-!
Shallow embedding of the alx-poll voting core: the Supabase-backed row
types (`polls`, `options`, `votes`, `profiles`), the vote API route
(`POST`/`GET /api/polls/[id]/vote`), the poll-detail aggregation
(`GET /api/polls/[id]`), the poll-creation route (`POST /api/polls`),
the client-side `submitVote`/`createPoll` helpers from `src/lib/db.ts`,
and the results-page percentage/winner computations.

Rows carry exactly the columns the embedded handlers read; timestamps
are integers (milliseconds since epoch, as produced by JS `Date`
comparison), ids are strings.  Database queries become list operations
on an explicit `DB` state; the handlers are pure state transformers
returning the JSON response they would emit together with the new state.
-/

namespace AlxPoll

/-- A row of the `polls` table, with the columns the handlers select:
`id, title, description, user_id, is_public, end_date`. -/
structure PollRow where
  id : String
  title : String
  description : Option String
  userId : String
  isPublic : Bool
  endDate : Option Int
  deriving DecidableEq, Repr

/-- A row of the `options` table: `id, poll_id, text`. -/
structure OptionRow where
  id : String
  pollId : String
  text : String
  deriving DecidableEq, Repr

/-- A row of the `votes` table: `poll_id, option_id, user_id` (the
generated `id`/`created_at` columns are never read by the handlers). -/
structure VoteRow where
  pollId : String
  optionId : String
  userId : String
  deriving DecidableEq, Repr

/-- A row of the `profiles` table: `id, name`. -/
structure ProfileRow where
  id : String
  name : String
  deriving DecidableEq, Repr

/-- The relational store: the four tables the poll core touches. -/
structure DB where
  profiles : List ProfileRow
  polls : List PollRow
  options : List OptionRow
  votes : List VoteRow
  deriving DecidableEq, Repr

/-- The JSON body + HTTP status the route handlers produce.  Fields that
a given response omits are `none`. -/
structure ApiResponse where
  status : Nat
  error : Option String := none
  success : Option Bool := none
  message : Option String := none
  hasVoted : Option Bool := none
  optionId : Option String := none
  pollId : Option String := none
  deriving DecidableEq, Repr

/-- Response 401 of the vote POST handler. -/
def respAuthVote : ApiResponse :=
  { status := 401, error := some "Authentication required to vote" }

/-- Response 400 for a missing/empty poll id. -/
def respInvalidPollId : ApiResponse :=
  { status := 400, error := some "Invalid poll ID" }

/-- Response 400 for a missing/empty option id. -/
def respOptionRequired : ApiResponse :=
  { status := 400, error := some "Option ID is required" }

/-- Response 404 when the poll lookup finds no row. -/
def respPollNotFound : ApiResponse :=
  { status := 404, error := some "Poll not found" }

/-- Response 403 for a private poll and a non-owner requester. -/
def respAccessDenied : ApiResponse :=
  { status := 403, error := some "Access denied" }

/-- Response 400 when the poll's end date has passed. -/
def respPollEnded : ApiResponse :=
  { status := 400, error := some "This poll has ended" }

/-- Response 400 when the option does not belong to the poll. -/
def respInvalidOption : ApiResponse :=
  { status := 400, error := some "Invalid option for this poll" }

/-- Response 400 when the requester has already voted in the poll. -/
def respAlreadyVoted : ApiResponse :=
  { status := 400, success := some false,
    message := some "You have already voted in this poll",
    hasVoted := some true }

/-- Response 200 after a successful vote insert. -/
def respVoteSuccess : ApiResponse :=
  { status := 200, success := some true,
    message := some "Vote submitted successfully",
    hasVoted := some true }

/-- Ended test `poll.end_date && new Date(poll.end_date) < new Date()`:
the poll is treated as ended exactly when `end_date` is set and strictly below
the current time. -/
def pollHasEnded (endDate : Option Int) (now : Int) : Bool :=
  match endDate with
  | some e => e < now
  | none => false

/-- Handler for `POST /api/polls/[id]/vote` (vote submission): authentication,
input validation, then the five precondition checks — poll exists,
poll accessible, poll not ended, option belongs to poll, not already
voted — and finally the insert into `votes`.  Returns the response and
the updated store. -/
def votePost (db : DB) (user : Option String) (pollId optionId : String)
    (now : Int) : ApiResponse × DB :=
  match user with
  | none => (respAuthVote, db)
  | some uid =>
    if pollId = "" then (respInvalidPollId, db)
    else if optionId = "" then (respOptionRequired, db)
    else
      match db.polls.find? (fun p => p.id = pollId) with
      | none => (respPollNotFound, db)
      | some poll =>
        if poll.isPublic = false ∧ poll.userId ≠ uid then
          (respAccessDenied, db)
        else if pollHasEnded poll.endDate now then
          (respPollEnded, db)
        else if ¬ (db.options.filter (fun o => o.pollId = pollId)).any
            (fun o => o.id = optionId) then
          (respInvalidOption, db)
        else
          match db.votes.find? (fun v => v.pollId = pollId ∧ v.userId = uid) with
          | some _ => (respAlreadyVoted, db)
          | none =>
            (respVoteSuccess,
             { db with votes :=
                db.votes ++ [{ pollId := pollId, optionId := optionId, userId := uid }] })

/-- Response 401 of the vote-status GET handler. -/
def respAuthStatus : ApiResponse :=
  { status := 401, error := some "Authentication required" }

/-- Handler for `GET /api/polls/[id]/vote` (vote status): authentication,
poll-id validation, then a lookup in `votes` only — the `polls` table is
never consulted. -/
def voteStatusGet (db : DB) (user : Option String) (pollId : String) :
    ApiResponse :=
  match user with
  | none => respAuthStatus
  | some uid =>
    if pollId = "" then respInvalidPollId
    else
      match db.votes.find? (fun v => v.pollId = pollId ∧ v.userId = uid) with
      | some v => { status := 200, hasVoted := some true, optionId := some v.optionId }
      | none => { status := 200, hasVoted := some false }

/-- One entry of the `options` array in the poll-detail response:
`{id, text, votes}`. -/
structure FormattedOption where
  id : String
  text : String
  votes : Nat
  deriving DecidableEq, Repr

/-- The poll-detail response body built by `GET /api/polls/[id]`. -/
structure FormattedPoll where
  id : String
  title : String
  description : Option String
  isPublic : Bool
  endDate : Option Int
  createdBy : String
  options : List FormattedOption
  totalVotes : Nat
  deriving DecidableEq, Repr

/-- Handler for `GET /api/polls/[id]` (poll detail with aggregation): fetch the poll
with its owner profile (`profiles!inner` — no profile row means no poll
row returned), its options and its votes; 403 for a private poll unless
the session user is the owner; then per-option counts by filtering the
poll's votes on `option_id`, and `totalVotes` as the length of the
poll's vote list. -/
def getPollDetail (db : DB) (session : Option String) (pollId : String) :
    Except ApiResponse FormattedPoll :=
  match db.polls.find? (fun p => p.id = pollId) with
  | none => .error respPollNotFound
  | some poll =>
    match db.profiles.find? (fun pr => pr.id = poll.userId) with
    | none => .error respPollNotFound
    | some profile =>
      if poll.isPublic = false ∧ session ≠ some profile.id then
        .error respAccessDenied
      else
        let pollVotes := db.votes.filter (fun v => v.pollId = pollId)
        .ok
          { id := poll.id
            title := poll.title
            description := poll.description
            isPublic := poll.isPublic
            endDate := poll.endDate
            createdBy := profile.name
            options :=
              (db.options.filter (fun o => o.pollId = pollId)).map
                (fun o =>
                  { id := o.id, text := o.text,
                    votes := (pollVotes.filter (fun v => v.optionId = o.id)).length })
            totalVotes := pollVotes.length }

/-- Client-side `submitVote` from `src/lib/db.ts`: check for an existing vote by
this user in this poll, throw if found, otherwise insert the row.  No
other table is consulted. -/
def submitVote (db : DB) (pollId optionId userId : String) :
    Except String DB :=
  match db.votes.find? (fun v => v.pollId = pollId ∧ v.userId = userId) with
  | some _ => .error "You have already voted in this poll"
  | none =>
    .ok { db with votes :=
      db.votes ++ [{ pollId := pollId, optionId := optionId, userId := userId }] }

/-- Model of JS `String.prototype.trim`: strip leading and trailing
whitespace (structural recursion over the character list, so that it
evaluates inside the kernel). -/
def strTrim (s : String) : String :=
  ⟨((s.data.dropWhile Char.isWhitespace).reverse.dropWhile
      Char.isWhitespace).reverse⟩

/-- Normalization `description?.trim() || null` applied to the stored description. -/
def normalizeDescription (description : Option String) : Option String :=
  match description with
  | none => none
  | some d => if strTrim d = "" then none else some (strTrim d)

/-- Response 401 of the poll-creation handler. -/
def respAuthCreate : ApiResponse :=
  { status := 401, error := some "Authentication required" }

/-- Response 400 for a missing/blank poll title. -/
def respTitleRequired : ApiResponse :=
  { status := 400, error := some "Poll title is required" }

/-- Response 400 for fewer than two options. -/
def respTooFewOptions : ApiResponse :=
  { status := 400, error := some "At least 2 options are required" }

/-- Response 400 for a blank option string. -/
def respBlankOption : ApiResponse :=
  { status := 400, error := some "All options must be non-empty strings" }

/-- Response 400 for an end date that is not in the future. -/
def respEndDateNotFuture : ApiResponse :=
  { status := 400, error := some "End date must be in the future" }

/-- Response 500 when the poll-row insert fails. -/
def respPollInsertFailed : ApiResponse :=
  { status := 500, error := some "Failed to create poll" }

/-- Response 500 when the options insert fails. -/
def respOptionsInsertFailed : ApiResponse :=
  { status := 500, error := some "Failed to create poll options" }

/-- Handler for `POST /api/polls` (poll creation): authentication, title/options/end
date validation, insert the poll row, insert the option rows, and — when
the options insert fails — delete the freshly inserted poll row before
returning the 500.  The store generates row ids, modelled by the
`newPollId`/`optIds` parameters; `pollInsertFails`/`optionsInsertFails`
inject the storage failures the handler reacts to. -/
def createPollPost (db : DB) (user : Option String) (title : String)
    (description : Option String) (options : Option (List String))
    (endDate : Option Int) (isPublic : Option Bool) (now : Int)
    (newPollId : String) (optIds : List String)
    (pollInsertFails optionsInsertFails : Bool) : ApiResponse × DB :=
  match user with
  | none => (respAuthCreate, db)
  | some uid =>
    if strTrim title = "" then (respTitleRequired, db)
    else
      match options with
      | none => (respTooFewOptions, db)
      | some opts =>
        if opts.length < 2 then (respTooFewOptions, db)
        else if opts.any (fun o => strTrim o = "") then (respBlankOption, db)
        else if (match endDate with | some e => decide (e ≤ now) | none => false) then
          (respEndDateNotFuture, db)
        else if pollInsertFails then (respPollInsertFailed, db)
        else
          let newPoll : PollRow :=
            { id := newPollId, title := strTrim title,
              description := normalizeDescription description,
              userId := uid,
              isPublic := isPublic.getD true,
              endDate := endDate }
          let db1 := { db with polls := db.polls ++ [newPoll] }
          if optionsInsertFails then
            (respOptionsInsertFailed,
             { db1 with polls := db1.polls.filter (fun p => ¬ p.id = newPollId) })
          else
            let newOptions := (opts.zip optIds).map
              (fun t => { id := t.2, pollId := newPollId, text := strTrim t.1 : OptionRow })
            ({ status := 201, success := some true, pollId := some newPollId },
             { db1 with options := db1.options ++ newOptions })

/-- Percentage computation `calculatePercentage` from the results page:
`total === 0 ? 0 : Math.round(votes / total * 100)`; JS `Math.round x`
is `⌊x + 1/2⌋`, which is Mathlib's `round` on `ℚ`. -/
def calculatePercentage (votes total : Nat) : Int :=
  if total = 0 then 0 else round ((votes : ℚ) / (total : ℚ) * 100)

/-- The per-option percentage the `PollPreview` component computes and
displays (to one decimal place): the raw ratio
`totalVotes > 0 ? votes / totalVotes * 100 : 0`, never rounded to an
integer. -/
def previewPercentage (votes total : Nat) : ℚ :=
  if total > 0 then (votes : ℚ) / (total : ℚ) * 100 else 0

/-- Winner computation `getWinningOption` from the results page: `null` on an empty list,
otherwise `reduce((prev, cur) => prev.votes > cur.votes ? prev : cur)` —
on a tie the accumulator is replaced, so the last option attaining the
maximum is returned, and some option is always designated. -/
def getWinningOption (options : List FormattedOption) :
    Option FormattedOption :=
  match options with
  | [] => none
  | first :: rest =>
    some (rest.foldl
      (fun prev current => if prev.votes > current.votes then prev else current)
      first)

/-- Access precondition 2 fails: the poll is private and the requester
is not its owner (`!poll.is_public && poll.user_id !== user.id`). -/
def accessDenied (poll : PollRow) (uid : String) : Prop :=
  poll.isPublic = false ∧ poll.userId ≠ uid

/-- Precondition 4: `optionId` names an option row of this poll. -/
def optionValidFor (db : DB) (pollId optionId : String) : Prop :=
  ∃ o ∈ db.options, o.pollId = pollId ∧ o.id = optionId

/-- Precondition 5 fails: a vote row for `(pollId, uid)` exists. -/
def hasVotedIn (db : DB) (pollId uid : String) : Prop :=
  ∃ v ∈ db.votes, v.pollId = pollId ∧ v.userId = uid

section ConcreteStores

/-- Store with one public ended poll (`end_date = 0`), two options and an
existing vote by `u1`. -/
def dbEndedDup : DB :=
  { profiles := [{ id := "w", name := "Wura" }]
    polls := [{ id := "p1", title := "Pick one", description := none,
                userId := "w", isPublic := true, endDate := some 0 }]
    options := [{ id := "o1", pollId := "p1", text := "A" },
                { id := "o2", pollId := "p1", text := "B" }]
    votes := [{ pollId := "p1", optionId := "o1", userId := "u1" }] }

/-- Store with one public poll ending at time `5`, two options and no
votes. -/
def dbEndsAt5 : DB :=
  { profiles := [{ id := "w", name := "Wura" }]
    polls := [{ id := "p1", title := "Pick one", description := none,
                userId := "w", isPublic := true, endDate := some 5 }]
    options := [{ id := "o1", pollId := "p1", text := "A" },
                { id := "o2", pollId := "p1", text := "B" }]
    votes := [] }

/-- Store with two public polls; the single vote on `p1` references an
option belonging to the other poll `p2` (insertable through the
client-side `submitVote`, which never checks option ownership). -/
def dbForeignOptionVote : DB :=
  { profiles := [{ id := "w", name := "Wura" }]
    polls := [{ id := "p1", title := "Pick one", description := none,
                userId := "w", isPublic := true, endDate := none },
              { id := "p2", title := "Other", description := none,
                userId := "w", isPublic := true, endDate := none }]
    options := [{ id := "o1", pollId := "p1", text := "A" },
                { id := "o2", pollId := "p2", text := "B" }]
    votes := [{ pollId := "p1", optionId := "o2", userId := "u1" }] }

/-- Store with one live public poll, two options, one vote by `u1`. -/
def dbOneVote : DB :=
  { profiles := [{ id := "w", name := "Wura" }]
    polls := [{ id := "p1", title := "Pick one", description := none,
                userId := "w", isPublic := true, endDate := none }]
    options := [{ id := "o1", pollId := "p1", text := "A" },
                { id := "o2", pollId := "p1", text := "B" }]
    votes := [{ pollId := "p1", optionId := "o1", userId := "u1" }] }

/-- Store with an ended public poll and no votes. -/
def dbEndedNoVotes : DB :=
  { profiles := [{ id := "w", name := "Wura" }]
    polls := [{ id := "p1", title := "Pick one", description := none,
                userId := "w", isPublic := true, endDate := some 0 }]
    options := [{ id := "o1", pollId := "p1", text := "A" },
                { id := "o2", pollId := "p2", text := "B" }]
    votes := [] }

/-- The empty store. -/
def dbEmpty : DB := { profiles := [], polls := [], options := [], votes := [] }

/-- The poll-detail body produced for `p1` of `dbOneVote`. -/
def fpOneVote : FormattedPoll :=
  { id := "p1", title := "Pick one", description := none,
    isPublic := true, endDate := none, createdBy := "Wura",
    options := [{ id := "o1", text := "A", votes := 1 },
                { id := "o2", text := "B", votes := 0 }],
    totalVotes := 1 }

end ConcreteStores

instance (poll : PollRow) (uid : String) : Decidable (accessDenied poll uid) :=
  decidable_of_iff (poll.isPublic = false ∧ poll.userId ≠ uid) Iff.rfl

instance (db : DB) (pollId optionId : String) :
    Decidable (optionValidFor db pollId optionId) :=
  decidable_of_iff (∃ o ∈ db.options, o.pollId = pollId ∧ o.id = optionId) Iff.rfl

instance (db : DB) (pollId uid : String) : Decidable (hasVotedIn db pollId uid) :=
  decidable_of_iff (∃ v ∈ db.votes, v.pollId = pollId ∧ v.userId = uid) Iff.rfl

/-- Reduction of `votePost` once authentication, input validation and the
poll lookup have succeeded. -/
lemma votePost_found {db : DB} {uid pollId optionId : String} {now : Int}
    {poll : PollRow} (h1 : pollId ≠ "") (h2 : optionId ≠ "")
    (hp : db.polls.find? (fun p => p.id = pollId) = some poll) :
    votePost db (some uid) pollId optionId now =
      if poll.isPublic = false ∧ poll.userId ≠ uid then (respAccessDenied, db)
      else if pollHasEnded poll.endDate now then (respPollEnded, db)
      else if ¬ (db.options.filter (fun o => o.pollId = pollId)).any
          (fun o => o.id = optionId) then
        (respInvalidOption, db)
      else
        match db.votes.find? (fun v => v.pollId = pollId ∧ v.userId = uid) with
        | some _ => (respAlreadyVoted, db)
        | none =>
          (respVoteSuccess,
           { db with votes :=
              db.votes ++ [{ pollId := pollId, optionId := optionId, userId := uid }] }) := by
  unfold votePost
  dsimp only
  rw [if_neg h1, if_neg h2, hp]

/-- Option-membership check of the vote handler, as a proposition. -/
lemma options_any_eq (db : DB) (pollId optionId : String) :
    ((db.options.filter (fun o => o.pollId = pollId)).any
        (fun o => o.id = optionId) = true)
      ↔ optionValidFor db pollId optionId := by
  simp [optionValidFor, List.any_eq_true, List.mem_filter, and_assoc]

/-- Existence of a duplicate vote makes the handler's `find?` succeed. -/
lemma find?_votes_ne_none {db : DB} {pollId uid : String}
    (h : hasVotedIn db pollId uid) :
    db.votes.find? (fun v => v.pollId = pollId ∧ v.userId = uid) ≠ none := by
  obtain ⟨v, hv, hpid, huid⟩ := h
  intro hnone
  rw [List.find?_eq_none] at hnone
  have := hnone v hv
  simp [hpid, huid] at this

/-- Absence of a duplicate vote makes the handler's `find?` fail. -/
lemma find?_votes_eq_none {db : DB} {pollId uid : String}
    (h : ¬ hasVotedIn db pollId uid) :
    db.votes.find? (fun v => v.pollId = pollId ∧ v.userId = uid) = none := by
  rw [List.find?_eq_none]
  intro v hv
  simp only [decide_eq_true_eq]
  exact fun hc => h ⟨v, hv, hc⟩

/-- C2: `castVote` evaluates its preconditions in the order PollNotFound,
AccessDenied, PollEnded, InvalidOption, AlreadyVoted, returns the error
of the first failing check, and writes no vote (state unchanged) on any
of these errors. -/
theorem votePost_error_precedence (db : DB) (uid pollId optionId : String)
    (now : Int) (h1 : pollId ≠ "") (h2 : optionId ≠ "") :
    (db.polls.find? (fun p => p.id = pollId) = none →
      votePost db (some uid) pollId optionId now = (respPollNotFound, db))
    ∧ (∀ poll, db.polls.find? (fun p => p.id = pollId) = some poll →
        accessDenied poll uid →
        votePost db (some uid) pollId optionId now = (respAccessDenied, db))
    ∧ (∀ poll, db.polls.find? (fun p => p.id = pollId) = some poll →
        ¬ accessDenied poll uid → pollHasEnded poll.endDate now = true →
        votePost db (some uid) pollId optionId now = (respPollEnded, db))
    ∧ (∀ poll, db.polls.find? (fun p => p.id = pollId) = some poll →
        ¬ accessDenied poll uid → pollHasEnded poll.endDate now = false →
        ¬ optionValidFor db pollId optionId →
        votePost db (some uid) pollId optionId now = (respInvalidOption, db))
    ∧ (∀ poll, db.polls.find? (fun p => p.id = pollId) = some poll →
        ¬ accessDenied poll uid → pollHasEnded poll.endDate now = false →
        optionValidFor db pollId optionId → hasVotedIn db pollId uid →
        votePost db (some uid) pollId optionId now = (respAlreadyVoted, db)) := by
  refine ⟨?_, ?_, ?_, ?_, ?_⟩
  · intro hnone
    unfold votePost
    dsimp only
    rw [if_neg h1, if_neg h2, hnone]
  · intro poll hp hacc
    rw [votePost_found h1 h2 hp,
      if_pos (show poll.isPublic = false ∧ poll.userId ≠ uid from hacc)]
  · intro poll hp hacc hend
    rw [votePost_found h1 h2 hp,
      if_neg (show ¬ (poll.isPublic = false ∧ poll.userId ≠ uid) from hacc), if_pos hend]
  · intro poll hp hacc hend hopt
    rw [votePost_found h1 h2 hp,
      if_neg (show ¬ (poll.isPublic = false ∧ poll.userId ≠ uid) from hacc),
      if_neg (by simp [hend]),
      if_pos (fun hc => hopt ((options_any_eq db pollId optionId).mp hc))]
  · intro poll hp hacc hend hopt hvoted
    rw [votePost_found h1 h2 hp,
      if_neg (show ¬ (poll.isPublic = false ∧ poll.userId ≠ uid) from hacc),
      if_neg (by simp [hend]),
      if_neg (fun hc => hc ((options_any_eq db pollId optionId).mpr hopt))]
    rcases hfind : db.votes.find? (fun v => v.pollId = pollId ∧ v.userId = uid) with _ | v
    · exact absurd hfind (find?_votes_ne_none hvoted)
    · rw [hfind]

/-- Witness for C2 at a concrete store where the requester has already
voted and every earlier check passes: the result is AlreadyVoted with
the store untouched. -/
theorem votePost_error_precedence_witness :
    votePost dbOneVote (some "u1") "p1" "o2" 7 = (respAlreadyVoted, dbOneVote) :=
  (votePost_error_precedence dbOneVote "u1" "p1" "o2" 7 (by decide) (by decide)).2.2.2.2
    { id := "p1", title := "Pick one", description := none,
      userId := "w", isPublic := true, endDate := none }
    (by rfl) (by decide) (by rfl) (by decide) (by decide)

/-- C1 counterexample: in `dbEndedDup` the voter `u1` already has a vote
on poll `p1`, yet a second `castVote` returns PollEnded (the poll's end
date has passed), not AlreadyVoted. -/
theorem votePost_dup_after_end_returns_pollEnded :
    (votePost dbEndedDup (some "u1") "p1" "o1" 5).1 = respPollEnded ∧
    (votePost dbEndedDup (some "u1") "p1" "o1" 5).1 ≠ respAlreadyVoted ∧
    hasVotedIn dbEndedDup "p1" "u1" := by decide

/-- C1 (amended): when a vote for `(pollId, uid)` exists the store is
never changed — no second vote row is written — and if additionally the
poll exists, is accessible, has not ended and the option is valid, the
response is the AlreadyVoted body (HTTP 400, `hasVoted: true`). -/
theorem votePost_alreadyVoted_noInsert (db : DB) (uid pollId optionId : String)
    (now : Int) (hvoted : hasVotedIn db pollId uid) :
    (votePost db (some uid) pollId optionId now).2 = db
    ∧ (pollId ≠ "" → optionId ≠ "" →
        ∀ poll, db.polls.find? (fun p => p.id = pollId) = some poll →
        ¬ accessDenied poll uid → pollHasEnded poll.endDate now = false →
        optionValidFor db pollId optionId →
        (votePost db (some uid) pollId optionId now).1 = respAlreadyVoted) := by
  constructor
  · by_cases h1 : pollId = ""
    · simp [votePost, h1]
    · by_cases h2 : optionId = ""
      · simp [votePost, h1, h2]
      · rcases hp : db.polls.find? (fun p => p.id = pollId) with _ | poll
        · unfold votePost
          dsimp only
          rw [if_neg h1, if_neg h2, hp]
        · rw [votePost_found h1 h2 hp]
          split_ifs with hacc hend hopt
          all_goals try rfl
          rcases hfind : db.votes.find?
              (fun v => v.pollId = pollId ∧ v.userId = uid) with _ | v
          · exact absurd hfind (find?_votes_ne_none hvoted)
          · rw [hfind]
  · intro h1 h2 poll hp hacc hend hopt
    rw [votePost_found h1 h2 hp,
      if_neg (show ¬ (poll.isPublic = false ∧ poll.userId ≠ uid) from hacc),
      if_neg (by simp [hend]),
      if_neg (fun hc => hc ((options_any_eq db pollId optionId).mpr hopt))]
    rcases hfind : db.votes.find? (fun v => v.pollId = pollId ∧ v.userId = uid) with _ | v
    · exact absurd hfind (find?_votes_ne_none hvoted)
    · rw [hfind]

/-- Witness for the amended C1 at a concrete store: both the
state-preservation part and the AlreadyVoted response. -/
theorem votePost_alreadyVoted_noInsert_witness :
    (votePost dbOneVote (some "u1") "p1" "o1" 3).2 = dbOneVote ∧
    (votePost dbOneVote (some "u1") "p1" "o1" 3).1 = respAlreadyVoted := by
  have h := votePost_alreadyVoted_noInsert dbOneVote "u1" "p1" "o1" 3 (by decide)
  exact ⟨h.1, h.2 (by decide) (by decide)
    { id := "p1", title := "Pick one", description := none,
      userId := "w", isPublic := true, endDate := none }
    (by rfl) (by decide) (by rfl) (by decide)⟩

/-- C3 counterexample: poll `p1` has `endsAt = 5`; a vote attempt at
`now = 5` (the instant `now = endsAt`) succeeds — it is not rejected as
PollEnded, because the code rejects only when `endsAt < now` strictly. -/
theorem votePost_at_endsAt_succeeds :
    (votePost dbEndsAt5 (some "u1") "p1" "o1" 5).1 = respVoteSuccess ∧
    (votePost dbEndsAt5 (some "u1") "p1" "o1" 5).1 ≠ respPollEnded ∧
    dbEndsAt5.polls.map (fun p => p.endDate) = [some 5] := by decide

/-- C3 (amended): with the poll found and accessible, `castVote` rejects
with PollEnded exactly when `endsAt` is set and `endsAt < now` strictly;
in particular votes at `now = endsAt` or earlier pass this check. -/
theorem votePost_pollEnded_iff (db : DB) (uid pollId optionId : String)
    (now : Int) (poll : PollRow) (h1 : pollId ≠ "") (h2 : optionId ≠ "")
    (hp : db.polls.find? (fun p => p.id = pollId) = some poll)
    (hacc : ¬ accessDenied poll uid) :
    (votePost db (some uid) pollId optionId now).1 = respPollEnded
      ↔ ∃ e, poll.endDate = some e ∧ e < now := by
  rw [votePost_found h1 h2 hp,
    if_neg (show ¬ (poll.isPublic = false ∧ poll.userId ≠ uid) from hacc)]
  constructor
  · intro h
    rcases hE : poll.endDate with _ | e
    · exfalso
      rw [if_neg (by simp [pollHasEnded, hE])] at h
      split_ifs at h with hopt
      · rcases hfind : db.votes.find?
            (fun v => v.pollId = pollId ∧ v.userId = uid) with _ | v <;>
          rw [hfind] at h
        · exact absurd (show respVoteSuccess = respPollEnded from h) (by decide)
        · exact absurd (show respAlreadyVoted = respPollEnded from h) (by decide)
      · exact absurd (show respInvalidOption = respPollEnded from h) (by decide)
    · refine ⟨e, rfl, ?_⟩
      by_contra hlt
      rw [if_neg (by simp [pollHasEnded, hE, hlt])] at h
      split_ifs at h with hopt
      · rcases hfind : db.votes.find?
            (fun v => v.pollId = pollId ∧ v.userId = uid) with _ | v <;>
          rw [hfind] at h
        · exact absurd (show respVoteSuccess = respPollEnded from h) (by decide)
        · exact absurd (show respAlreadyVoted = respPollEnded from h) (by decide)
      · exact absurd (show respInvalidOption = respPollEnded from h) (by decide)
  · rintro ⟨e, hE, hlt⟩
    rw [if_pos (by simp [pollHasEnded, hE, hlt])]

/-- Witness for the amended C3: at `now = 6 > endsAt = 5` the response is
PollEnded, and the iff also certifies the converse direction at `now = 5`. -/
theorem votePost_pollEnded_iff_witness :
    (votePost dbEndsAt5 (some "u1") "p1" "o1" 6).1 = respPollEnded ∧
    ¬ (votePost dbEndsAt5 (some "u1") "p1" "o1" 5).1 = respPollEnded := by
  constructor
  · exact (votePost_pollEnded_iff dbEndsAt5 "u1" "p1" "o1" 6
      { id := "p1", title := "Pick one", description := none,
        userId := "w", isPublic := true, endDate := some 5 }
      (by decide) (by decide) (by rfl) (by decide)).mpr ⟨5, rfl, by decide⟩
  · intro h
    obtain ⟨e, he, hlt⟩ := (votePost_pollEnded_iff dbEndsAt5 "u1" "p1" "o1" 5
      { id := "p1", title := "Pick one", description := none,
        userId := "w", isPublic := true, endDate := some 5 }
      (by decide) (by decide) (by rfl) (by decide)).mp h
    rw [Option.some.injEq] at he
    omega

/-- Sum of a pointwise-added map splits. -/
lemma sum_map_add_nat {α : Type} (l : List α) (f g : α → Nat) :
    (l.map (fun x => f x + g x)).sum = (l.map f).sum + (l.map g).sum := by
  induction l with
  | nil => rfl
  | cons a l ih =>
    simp only [List.map_cons, List.sum_cons, ih]
    omega

/-- Indicator sum over a list not containing the key is zero. -/
lemma sum_indicator_not_mem {s : String} :
    ∀ {l : List String}, s ∉ l →
      (l.map (fun i => if s = i then (1 : Nat) else 0)).sum = 0 := by
  intro l
  induction l with
  | nil => intro _; rfl
  | cons a l ih =>
    intro h
    simp only [List.map_cons, List.sum_cons]
    have hne : s ≠ a := fun he => h (by rw [he]; exact List.mem_cons_self a l)
    rw [if_neg hne, ih (fun hm => h (List.mem_cons_of_mem a hm))]

/-- Indicator sum over a duplicate-free list containing the key is one. -/
lemma sum_indicator_mem {s : String} :
    ∀ {l : List String}, l.Nodup → s ∈ l →
      (l.map (fun i => if s = i then (1 : Nat) else 0)).sum = 1 := by
  intro l
  induction l with
  | nil => intro _ h; cases h
  | cons a l ih =>
    intro hnd hmem
    simp only [List.map_cons, List.sum_cons]
    rcases List.mem_cons.mp hmem with rfl | hmem'
    · rw [if_pos rfl, sum_indicator_not_mem (List.nodup_cons.mp hnd).1]
    · have hne : s ≠ a := fun he => (List.nodup_cons.mp hnd).1 (he ▸ hmem')
      rw [if_neg hne, ih (List.nodup_cons.mp hnd).2 hmem']

/-- Partition count: when every element's key occurs exactly once in
`ids`, summing the per-key filter counts returns the list's length. -/
lemma length_eq_sum_filter_counts {α : Type} (key : α → String) :
    ∀ (vs : List α) (ids : List String), ids.Nodup →
      (∀ v ∈ vs, key v ∈ ids) →
      (ids.map (fun i => (vs.filter (fun v => key v = i)).length)).sum
        = vs.length := by
  intro vs
  induction vs with
  | nil => intro ids _ _; simp
  | cons v vs ih =>
    intro ids hnd hall
    have hstep : (fun i => (List.filter (fun w => decide (key w = i)) (v :: vs)).length)
        = (fun i => (if key v = i then (1 : Nat) else 0)
            + (List.filter (fun w => decide (key w = i)) vs).length) := by
      funext i
      by_cases h : key v = i
      · simp [List.filter_cons, h]
        omega
      · simp [List.filter_cons, h]
    rw [hstep, sum_map_add_nat,
      sum_indicator_mem hnd (hall v (List.mem_cons_self v vs)),
      ih ids hnd (fun w hw => hall w (List.mem_cons_of_mem v hw))]
    simp [List.length_cons]
    omega

/-- Inversion of a successful poll-detail fetch: the shapes of the
`options` array and of `totalVotes`. -/
lemma getPollDetail_ok_elim {db : DB} {session : Option String}
    {pollId : String} {fp : FormattedPoll}
    (h : getPollDetail db session pollId = .ok fp) :
    fp.options = (db.options.filter (fun o => o.pollId = pollId)).map
        (fun o =>
          { id := o.id, text := o.text,
            votes := ((db.votes.filter (fun v => v.pollId = pollId)).filter
              (fun v => v.optionId = o.id)).length })
    ∧ fp.totalVotes = (db.votes.filter (fun v => v.pollId = pollId)).length := by
  rcases hp : db.polls.find? (fun p => p.id = pollId) with _ | poll
  · have hres : getPollDetail db session pollId = .error respPollNotFound := by
      unfold getPollDetail
      rw [hp]
    rw [hres] at h
    exact Except.noConfusion h
  · rcases hpr : db.profiles.find? (fun pr => pr.id = poll.userId) with _ | profile
    · have hres : getPollDetail db session pollId = .error respPollNotFound := by
        unfold getPollDetail
        rw [hp]
        dsimp only
        rw [hpr]
      rw [hres] at h
      exact Except.noConfusion h
    · by_cases hacc : poll.isPublic = false ∧ session ≠ some profile.id
      · have hres : getPollDetail db session pollId = .error respAccessDenied := by
          unfold getPollDetail
          rw [hp]
          dsimp only
          rw [hpr]
          dsimp only
          rw [if_pos hacc]
        rw [hres] at h
        exact Except.noConfusion h
      · have hres : getPollDetail db session pollId = .ok
            { id := poll.id, title := poll.title, description := poll.description,
              isPublic := poll.isPublic, endDate := poll.endDate,
              createdBy := profile.name,
              options := (db.options.filter (fun o => o.pollId = pollId)).map
                (fun o =>
                  { id := o.id, text := o.text,
                    votes := ((db.votes.filter (fun v => v.pollId = pollId)).filter
                      (fun v => v.optionId = o.id)).length }),
              totalVotes := (db.votes.filter (fun v => v.pollId = pollId)).length } := by
          unfold getPollDetail
          rw [hp]
          dsimp only
          rw [hpr]
          dsimp only
          rw [if_neg hacc]
        rw [hres] at h
        injection h with h
        subst h
        exact ⟨rfl, rfl⟩

/-- C4 counterexample: in `dbForeignOptionVote` the single vote on `p1`
references option `o2` of another poll, so the poll detail reports
`totalVotes = 1` while the per-option counts sum to `0`. -/
theorem pollDetail_total_ne_sum_foreign_vote :
    Except.map (fun fp => (fp.totalVotes, (fp.options.map (fun o => o.votes)).sum))
      (getPollDetail dbForeignOptionVote none "p1") = Except.ok (1, 0) := by
  rfl

/-- C4 (amended): whenever every vote on the poll references one of the
poll's own options and the option ids are duplicate-free — both
guaranteed by the vote API route, though not by the client-side
`submitVote` — the reported `totalVotes` equals the sum of the
per-option counts. -/
theorem pollDetail_totalVotes_eq_sum (db : DB) (session : Option String)
    (pollId : String) (fp : FormattedPoll)
    (h : getPollDetail db session pollId = .ok fp)
    (hnd : ((db.options.filter (fun o => o.pollId = pollId)).map
      (fun o => o.id)).Nodup)
    (hall : ∀ v ∈ db.votes.filter (fun v => v.pollId = pollId),
      v.optionId ∈ (db.options.filter (fun o => o.pollId = pollId)).map
        (fun o => o.id)) :
    fp.totalVotes = (fp.options.map (fun o => o.votes)).sum := by
  obtain ⟨hopts, htot⟩ := getPollDetail_ok_elim h
  rw [htot, hopts, List.map_map]
  show (db.votes.filter (fun v => v.pollId = pollId)).length
      = ((db.options.filter (fun o => o.pollId = pollId)).map
          ((fun i => ((db.votes.filter (fun v => v.pollId = pollId)).filter
              (fun v => v.optionId = i)).length) ∘ (fun o => o.id))).sum
  rw [← List.map_map]
  exact (length_eq_sum_filter_counts (fun v => v.optionId)
    (db.votes.filter (fun v => v.pollId = pollId))
    ((db.options.filter (fun o => o.pollId = pollId)).map (fun o => o.id))
    hnd hall).symm

/-- Witness for the amended C4 at `dbOneVote`: total `1` equals `1 + 0`. -/
theorem pollDetail_totalVotes_eq_sum_witness :
    fpOneVote.totalVotes = (fpOneVote.options.map (fun o => o.votes)).sum :=
  pollDetail_totalVotes_eq_sum dbOneVote none "p1" fpOneVote (by rfl)
    (by decide) (by decide)

/-- C5: a successful poll-detail fetch returns exactly the poll's
options — same id list, same length — and each entry's count is the
number of stored votes for that option (in particular `0`, never an
omission, for an option without votes). -/
theorem pollDetail_options_faithful (db : DB) (session : Option String)
    (pollId : String) (fp : FormattedPoll)
    (h : getPollDetail db session pollId = .ok fp) :
    fp.options.map (fun o => o.id)
        = (db.options.filter (fun o => o.pollId = pollId)).map (fun o => o.id)
    ∧ fp.options.length = (db.options.filter (fun o => o.pollId = pollId)).length
    ∧ ∀ fo ∈ fp.options,
        fo.votes = (db.votes.filter
          (fun v => v.pollId = pollId ∧ v.optionId = fo.id)).length := by
  obtain ⟨hopts, -⟩ := getPollDetail_ok_elim h
  refine ⟨?_, ?_, ?_⟩
  · rw [hopts, List.map_map]
    rfl
  · rw [hopts]
    exact List.length_map _ _
  · intro fo hfo
    rw [hopts] at hfo
    obtain ⟨o, ho, rfl⟩ := List.mem_map.mp hfo
    show ((db.votes.filter (fun v => v.pollId = pollId)).filter
        (fun v => v.optionId = o.id)).length
      = (db.votes.filter (fun v => v.pollId = pollId ∧ v.optionId = o.id)).length
    have hpred : (fun (a : VoteRow) =>
          decide (a.optionId = o.id) && decide (a.pollId = pollId))
        = (fun (v : VoteRow) => decide (v.pollId = pollId ∧ v.optionId = o.id)) := by
      funext a
      by_cases h1 : a.pollId = pollId <;> by_cases h2 : a.optionId = o.id <;>
        simp [h1, h2]
    rw [List.filter_filter, hpred]

/-- Witness for C5 at `dbOneVote`: both options are present, `o2` with
count `0`. -/
theorem pollDetail_options_faithful_witness :
    fpOneVote.options.map (fun o => o.id)
        = (dbOneVote.options.filter (fun o => o.pollId = "p1")).map (fun o => o.id)
    ∧ fpOneVote.options.length
        = (dbOneVote.options.filter (fun o => o.pollId = "p1")).length
    ∧ ∀ fo ∈ fpOneVote.options,
        fo.votes = (dbOneVote.votes.filter
          (fun v => v.pollId = "p1" ∧ v.optionId = fo.id)).length :=
  pollDetail_options_faithful dbOneVote none "p1" fpOneVote (by rfl)

/-- C6 counterexample: at one vote out of three the preview component
displays `100/3 ≈ 33.3`, which is not the rounded integer
`round(1/3 · 100) = 33` the claim prescribes. -/
theorem previewPercentage_not_rounded :
    previewPercentage 1 3 ≠ ((calculatePercentage 1 3 : Int) : ℚ) := by
  unfold previewPercentage calculatePercentage
  norm_num [round_eq]

/-- C6 (amended): the results page's `calculatePercentage` is
`round(votes/total · 100)` for positive totals — hence within one half of
the exact ratio — and `0` when the total is zero; the preview component
also yields `0` on a zero total but otherwise shows the unrounded ratio. -/
theorem percentage_spec (votes total : Nat) (h : 0 < total) :
    calculatePercentage votes total = round ((votes : ℚ) / (total : ℚ) * 100)
    ∧ |((calculatePercentage votes total : Int) : ℚ)
        - (votes : ℚ) / (total : ℚ) * 100| ≤ 1 / 2
    ∧ calculatePercentage votes 0 = 0
    ∧ previewPercentage votes 0 = 0 := by
  have h0 : total ≠ 0 := by omega
  have hc : calculatePercentage votes total
      = round ((votes : ℚ) / (total : ℚ) * 100) := by
    unfold calculatePercentage
    rw [if_neg h0]
  refine ⟨hc, ?_, rfl, rfl⟩
  rw [hc, abs_sub_comm]
  exact abs_sub_round _

/-- Witness for the amended C6 at `votes = 1, total = 3`. -/
theorem percentage_spec_witness :
    0 < 3
    ∧ (calculatePercentage 1 3 = round (((1 : Nat) : ℚ) / ((3 : Nat) : ℚ) * 100)
      ∧ |((calculatePercentage 1 3 : Int) : ℚ)
          - ((1 : Nat) : ℚ) / ((3 : Nat) : ℚ) * 100| ≤ 1 / 2
      ∧ calculatePercentage 1 0 = 0
      ∧ previewPercentage 1 0 = 0) :=
  ⟨by decide, percentage_spec 1 3 (by decide)⟩

/-- Accumulator specification of the results page's winner `reduce`: the
result is one of the scanned options and its count dominates all of
them. -/
lemma winner_foldl_spec :
    ∀ (rest : List FormattedOption) (first : FormattedOption),
      (List.foldl (fun prev current =>
          if prev.votes > current.votes then prev else current) first rest)
        ∈ first :: rest
      ∧ first.votes ≤ (List.foldl (fun prev current =>
          if prev.votes > current.votes then prev else current) first rest).votes
      ∧ ∀ o ∈ rest, o.votes ≤ (List.foldl (fun prev current =>
          if prev.votes > current.votes then prev else current) first rest).votes := by
  intro rest
  induction rest with
  | nil =>
    intro first
    refine ⟨List.mem_cons_self first [], le_refl _, ?_⟩
    intro o ho
    exact absurd ho (List.not_mem_nil o)
  | cons c cs ih =>
    intro first
    rw [List.foldl_cons]
    obtain ⟨hmem, hge, hall⟩ :=
      ih (if first.votes > c.votes then first else c)
    have hfirst_le : first.votes
        ≤ (if first.votes > c.votes then first else c).votes := by
      split_ifs with hfc
      · exact le_refl _
      · exact Nat.le_of_not_lt hfc
    have hc_le : c.votes ≤ (if first.votes > c.votes then first else c).votes := by
      split_ifs with hfc
      · exact Nat.le_of_lt hfc
      · exact le_refl _
    have hb_mem : (if first.votes > c.votes then first else c) = first
        ∨ (if first.votes > c.votes then first else c) = c := by
      split_ifs
      · exact Or.inl rfl
      · exact Or.inr rfl
    refine ⟨?_, ?_, ?_⟩
    · rcases List.mem_cons.mp hmem with he | hmem'
      · rw [he]
        rcases hb_mem with hbf | hbc
        · rw [hbf]
          exact List.mem_cons_self first (c :: cs)
        · rw [hbc]
          exact List.mem_cons_of_mem first (List.mem_cons_self c cs)
      · exact List.mem_cons_of_mem first (List.mem_cons_of_mem c hmem')
    · exact le_trans hfirst_le hge
    · intro o ho
      rcases List.mem_cons.mp ho with rfl | ho'
      · exact le_trans hc_le hge
      · exact hall o ho'

/-- C7 counterexample: two options tied at one vote each — the results
page still designates a single winner, namely the last option attaining
the maximum. -/
theorem getWinningOption_tie_single_winner :
    getWinningOption [{ id := "a", text := "A", votes := 1 },
        { id := "b", text := "B", votes := 1 }]
      = some { id := "b", text := "B", votes := 1 } := by
  rfl

/-- C7 (amended): the computed winning option is always one of the
poll's options and attains the maximum vote count (not necessarily
strictly — on ties the last maximal option is designated). -/
theorem getWinningOption_mem_max (opts : List FormattedOption)
    (w : FormattedOption) (h : getWinningOption opts = some w) :
    w ∈ opts ∧ ∀ o ∈ opts, o.votes ≤ w.votes := by
  cases opts with
  | nil => exact Option.noConfusion h
  | cons first rest =>
    obtain ⟨hmem, hge, hall⟩ := winner_foldl_spec rest first
    have hw : List.foldl (fun prev current =>
        if prev.votes > current.votes then prev else current) first rest = w := by
      have h' := h
      unfold getWinningOption at h'
      injection h' with h'
    rw [hw] at hmem hge hall
    refine ⟨hmem, ?_⟩
    intro o ho
    rcases List.mem_cons.mp ho with rfl | ho'
    · exact hge
    · exact hall o ho'

/-- Witness for the amended C7 on a two-option list with a clear
maximum. -/
theorem getWinningOption_mem_max_witness :
    ({ id := "b", text := "B", votes := 5 } : FormattedOption)
        ∈ [({ id := "a", text := "A", votes := 2 } : FormattedOption),
           { id := "b", text := "B", votes := 5 }]
    ∧ ∀ o ∈ [({ id := "a", text := "A", votes := 2 } : FormattedOption),
           { id := "b", text := "B", votes := 5 }],
        o.votes ≤ ({ id := "b", text := "B", votes := 5 } : FormattedOption).votes :=
  getWinningOption_mem_max
    [{ id := "a", text := "A", votes := 2 }, { id := "b", text := "B", votes := 5 }]
    { id := "b", text := "B", votes := 5 } (by rfl)

/-- C8: whenever poll creation reports anything but 201 — validation
failure, poll-insert failure, or options-insert failure with its
compensating delete — the `polls` table is left exactly as it was: no
orphaned poll row survives a failed `createPoll`. -/
theorem createPoll_failure_no_orphan (db : DB) (user : Option String)
    (title : String) (description : Option String)
    (options : Option (List String)) (endDate : Option Int)
    (isPublic : Option Bool) (now : Int) (newPollId : String)
    (optIds : List String) (pollInsertFails optionsInsertFails : Bool)
    (hfresh : ∀ p ∈ db.polls, p.id ≠ newPollId) :
    (createPollPost db user title description options endDate isPublic now
        newPollId optIds pollInsertFails optionsInsertFails).1.status ≠ 201 →
    (createPollPost db user title description options endDate isPublic now
        newPollId optIds pollInsertFails optionsInsertFails).2.polls
      = db.polls := by
  unfold createPollPost
  cases user with
  | none => exact fun _ => rfl
  | some uid =>
    dsimp only
    by_cases ht : strTrim title = ""
    · rw [if_pos ht]
      exact fun _ => rfl
    · rw [if_neg ht]
      cases options with
      | none => exact fun _ => rfl
      | some opts =>
        dsimp only
        split_ifs with hlen hblank hend hpf hof
        · exact fun _ => rfl
        · exact fun _ => rfl
        · exact fun _ => rfl
        · exact fun _ => rfl
        · intro _
          show (db.polls ++ [_]).filter (fun p => ¬ p.id = newPollId) = db.polls
          rw [List.filter_append]
          have h1 : db.polls.filter
              (fun p => ¬ p.id = newPollId) = db.polls := by
            rw [List.filter_eq_self]
            intro p hp
            simp [hfresh p hp]
          have h2 : List.filter (fun p => ¬ p.id = newPollId)
              [({ id := newPollId, title := strTrim title,
                  description := normalizeDescription description,
                  userId := uid, isPublic := isPublic.getD true,
                  endDate := endDate } : PollRow)] = [] := by
            simp
          rw [h1, h2, List.append_nil]
        · intro hcon
          exact absurd rfl hcon

/-- Witness for C8: the options insert is made to fail on a fresh store;
the handler answers 500 and the polls table is back to empty. -/
theorem createPoll_failure_no_orphan_witness :
    (createPollPost dbEmpty (some "u1") "T" none (some ["a", "b"]) none none
        0 "p9" ["x", "y"] false true).1.status ≠ 201 ∧
    (createPollPost dbEmpty (some "u1") "T" none (some ["a", "b"]) none none
        0 "p9" ["x", "y"] false true).2.polls = dbEmpty.polls :=
  ⟨by decide,
   createPoll_failure_no_orphan dbEmpty (some "u1") "T" none (some ["a", "b"])
     none none 0 "p9" ["x", "y"] false true (by decide) (by decide)⟩

/-- C9: the client-side `submitVote` consults only the `votes` table —
its outcome is unchanged under arbitrary replacement of the `polls`,
`options` and `profiles` tables — and with no prior vote by the user on
the poll it inserts the row, ended poll or foreign option included. -/
theorem submitVote_only_checks_votes (db : DB) (pollId optionId userId : String)
    (hno : ∀ v ∈ db.votes, ¬ (v.pollId = pollId ∧ v.userId = userId)) :
    submitVote db pollId optionId userId
      = .ok { db with votes :=
          db.votes ++ [{ pollId := pollId, optionId := optionId, userId := userId }] }
    ∧ ∀ (prs : List ProfileRow) (ps : List PollRow) (os : List OptionRow),
        submitVote ⟨prs, ps, os, db.votes⟩ pollId optionId userId
          = .ok ⟨prs, ps, os,
              db.votes ++ [{ pollId := pollId, optionId := optionId, userId := userId }]⟩ := by
  have hfind : db.votes.find?
      (fun v => v.pollId = pollId ∧ v.userId = userId) = none := by
    rw [List.find?_eq_none]
    intro v hv
    simp only [decide_eq_true_eq]
    exact hno v hv
  constructor
  · unfold submitVote
    rw [hfind]
  · intro prs ps os
    unfold submitVote
    dsimp only
    rw [hfind]

/-- Witness for C9: `dbEndedNoVotes` has an ended poll `p1` and an
option `o2` belonging to a different (indeed nonexistent) poll `p2`;
`submitVote` still writes the `(p1, o2)` vote row. -/
theorem submitVote_only_checks_votes_witness :
    submitVote dbEndedNoVotes "p1" "o2" "u9"
      = Except.ok { dbEndedNoVotes with
          votes := [{ pollId := "p1", optionId := "o2", userId := "u9" }] } :=
  (submitVote_only_checks_votes dbEndedNoVotes "p1" "o2" "u9" (by decide)).1

/-- C10 counterexample: for the empty poll-id string — for which no vote
row exists — the vote-status endpoint answers 400, not the 200 with
`hasVoted: false` the claim asserts for every pollId string. -/
theorem voteStatusGet_empty_id_400 :
    voteStatusGet dbEmpty (some "u1") "" = respInvalidPollId ∧
    respInvalidPollId.status = 400 := by decide

/-- C10 (amended): for every authenticated user and every non-empty
pollId with no vote row `(pollId, userId)` — ids of nonexistent polls
included, since the handler never consults `polls` — the endpoint
returns HTTP 200 with `hasVoted: false` and no optionId. -/
theorem voteStatusGet_no_vote_200 (db : DB) (uid pollId : String)
    (h1 : pollId ≠ "")
    (hno : ∀ v ∈ db.votes, ¬ (v.pollId = pollId ∧ v.userId = uid)) :
    voteStatusGet db (some uid) pollId
      = { status := 200, hasVoted := some false }
    ∧ ∀ ps : List PollRow,
        voteStatusGet { db with polls := ps } (some uid) pollId
          = { status := 200, hasVoted := some false } := by
  have hfind : db.votes.find?
      (fun v => v.pollId = pollId ∧ v.userId = uid) = none := by
    rw [List.find?_eq_none]
    intro v hv
    simp only [decide_eq_true_eq]
    exact hno v hv
  constructor
  · unfold voteStatusGet
    dsimp only
    rw [if_neg h1, hfind]
  · intro ps
    unfold voteStatusGet
    dsimp only
    rw [if_neg h1, hfind]

/-- Witness for the amended C10: a store whose `polls` table does not
contain `pZ` at all still yields 200/`hasVoted: false`. -/
theorem voteStatusGet_no_vote_200_witness :
    voteStatusGet dbOneVote (some "u1") "pZ"
      = { status := 200, hasVoted := some false } :=
  (voteStatusGet_no_vote_200 dbOneVote "u1" "pZ" (by decide) (by decide)).1

end AlxPoll
